import Mathlib

/-!
Shallow embedding of the Auditly contract risk analyzer core
(the pure evaluation pipeline: bytecode/ABI/explorer-metadata scanning,
the four indicator evaluators, and the penalty aggregator), together
with theorems settling the specification claims about it.

All definitions are translated from the TypeScript source of the latest
analyzer variant; JavaScript semantics (string truthiness, first-occurrence
replace, substring containment) are modelled explicitly.
-/

set_option maxRecDepth 100000

namespace Auditly

/- ## JavaScript string primitives used by the analyzer -/

/-- Substring test on character lists: JavaScript hay.includes(pat). -/
def hasSubstr (pat : List Char) : List Char → Bool
  | [] => pat.isEmpty
  | c :: t => pat.isPrefixOf (c :: t) || hasSubstr pat t

/-- JavaScript s.includes(pat). -/
def strIncludes (s pat : String) : Bool :=
  hasSubstr pat.data s.data

/-- JavaScript s.startsWith(pat). -/
def strStartsWith (s pat : String) : Bool :=
  pat.data.isPrefixOf s.data

/-- Replace the first occurrence of pat in a character list;
JavaScript s.replace(pat, "") with a string pattern replaces only
the first occurrence. -/
def replaceFirstAux (pat : List Char) : List Char → List Char
  | [] => []
  | c :: t => if pat.isPrefixOf (c :: t) then (c :: t).drop pat.length
              else c :: replaceFirstAux pat t

/-- JavaScript s.replace(pat, "") for a string pattern. -/
def replaceFirst (s pat : String) : String :=
  ⟨replaceFirstAux pat.data s.data⟩

/-- JavaScript s.toLowerCase(), character by character. -/
def strToLower (s : String) : String :=
  ⟨s.data.map Char.toLower⟩

/-- JavaScript truthiness of a nullable string: null and "" are falsy. -/
def jsTruthyStr : Option String → Bool
  | none => false
  | some s => s != ""

/- ## Shared data model (types/analysis.ts) -/

/-- IndicatorKey: the six indicator names of the shared types module;
verifiedSource, proxy, ownerPrivileges and dangerousFunctions score,
liquidity and holderDistribution are informational. -/
inductive IndicatorKey where
  | verifiedSource
  | proxy
  | ownerPrivileges
  | dangerousFunctions
  | liquidity
  | holderDistribution
deriving DecidableEq

/-- RiskStatus: PASS, WARN or FAIL. -/
inductive RiskStatus where
  | pass
  | warn
  | fail
deriving DecidableEq

/-- Risk tier of a signature-table entry: high or medium. -/
inductive Risk where
  | high
  | medium
deriving DecidableEq

/-- One entry of a selector/opcode signature table. -/
structure SigInfo where
  name : String
  risk : Risk
  description : String
deriving DecidableEq

/-- ABI entry; the analyzer core reads only the type and name fields
(getFunctionNames filters on type and lowercases the name). -/
structure AbiEntry where
  type : String
  name : String
  stateMutability : String
deriving DecidableEq

/-- ExplorerContractInfo as returned by fetchContractInfo. -/
structure ExplorerContractInfo where
  isVerified : Bool
  abi : Option (List AbiEntry)
  implementation : Option String
  proxy : Bool
  contractCreator : Option String
  proxyAdmin : Option String
  contractName : Option String
  sourceCode : Option String
deriving DecidableEq

/-- FindingDetail as produced by buildFinding.  The evidence field of the
source (a heterogeneous display-only JSON map that no decision branch
reads back) is not modelled. -/
structure FindingDetail where
  key : IndicatorKey
  title : String
  category : String
  status : RiskStatus
  reason : String
  hint : String
  penalty : Nat
  explanation : String
deriving DecidableEq

/-- Per-indicator static metadata record. -/
structure IndicatorMeta where
  title : String
  category : String
  explanation : String
  goodMessage : String
  maxPenalty : Nat
deriving DecidableEq

/-- indicatorMetadata: the static per-indicator table.  The four scoring
entries are from the latest analyzer variant; the two informational
entries appear only in the token-mode variant of the same file. -/
def indicatorMetadata : IndicatorKey → IndicatorMeta
  | .verifiedSource =>
    { title := "Verified Source"
      category := "Code Security"
      explanation := "Verified source code allows anyone to audit and diff the contract."
      goodMessage := "Contract source is verified on the explorer."
      maxPenalty := 30 }
  | .proxy =>
    { title := "Proxy / Upgradeable"
      category := "Proxy Security"
      explanation := "Upgradeable contracts can change logic after deployment."
      goodMessage := "No proxy pattern detected."
      maxPenalty := 15 }
  | .ownerPrivileges =>
    { title := "Owner Privileges"
      category := "Admin Controls"
      explanation := "Owner-only functions can change fees, pause transfers or restrict wallets."
      goodMessage := "No high-impact owner-only functions detected."
      maxPenalty := 20 }
  | .dangerousFunctions =>
    { title := "Dangerous Functions"
      category := "Red Flags"
      explanation := "Functions like mint, burn or emergency withdraw can impact supply or funds."
      goodMessage := "No red-flag functions detected."
      maxPenalty := 30 }
  | .liquidity =>
    { title := "Liquidity Status"
      category := "Market Safety"
      explanation := "Centralized LP ownership can make rugs easier."
      goodMessage := "Liquidity ownership looks diversified."
      maxPenalty := 20 }
  | .holderDistribution =>
    { title := "Holder Distribution"
      category := "Supply Concentration"
      explanation := "Whales that control supply can move markets or pause trading."
      goodMessage := "No single holder controls a large share of supply."
      maxPenalty := 25 }

/- ## Static vocabularies and signature tables -/

def OWNER_PRIVILEGE_KEYWORDS : List String :=
  ["settax", "setfee", "setmax", "setlimit", "pause", "unpause", "blacklist", "whitelist"]

def HIGH_OWNER_PRIVILEGES : List String :=
  ["blacklist", "whitelist"]

def DANGEROUS_FUNCTION_KEYWORDS : List String :=
  ["mint", "burn", "withdraw", "emergencywithdraw", "rug", "swapandliquify", "delegatecall"]

/-- DANGEROUS_SELECTORS: known risky 4-byte function selectors, in source
(insertion) order. -/
def DANGEROUS_SELECTORS : List (String × SigInfo) :=
  [ ("40c10f19", ⟨"mint(address,uint256)", .high, "Can create new tokens"⟩),
    ("a0712d68", ⟨"mint(uint256)", .high, "Can create new tokens"⟩),
    ("4e6ec247", ⟨"mint(address,uint256,bytes)", .high, "Can create new tokens"⟩),
    ("42966c68", ⟨"burn(uint256)", .medium, "Can destroy tokens"⟩),
    ("9dc29fac", ⟨"burn(address,uint256)", .high, "Can burn tokens from any address"⟩),
    ("79cc6790", ⟨"burnFrom(address,uint256)", .high, "Can burn tokens from any address"⟩),
    ("8456cb59", ⟨"pause()", .medium, "Can pause all transfers"⟩),
    ("3f4ba83a", ⟨"unpause()", .medium, "Can control transfer pausing"⟩),
    ("5c975abb", ⟨"paused()", .medium, "Has pause mechanism"⟩),
    ("44337ea1", ⟨"blacklist(address)", .high, "Can blacklist addresses"⟩),
    ("537df3b6", ⟨"unBlacklist(address)", .high, "Has blacklist mechanism"⟩),
    ("fe575a87", ⟨"isBlacklisted(address)", .medium, "Has blacklist mechanism"⟩),
    ("e47d6060", ⟨"isBlackListed(address)", .medium, "Has blacklist mechanism"⟩),
    ("f2fde38b", ⟨"transferOwnership(address)", .medium, "Ownership can be transferred"⟩),
    ("715018a6", ⟨"renounceOwnership()", .medium, "Has ownership controls"⟩),
    ("8da5cb5b", ⟨"owner()", .medium, "Has owner role"⟩),
    ("3659cfe6", ⟨"upgradeTo(address)", .high, "Contract can be upgraded"⟩),
    ("4f1ef286", ⟨"upgradeToAndCall(address,bytes)", .high, "Contract can be upgraded"⟩),
    ("5c60da1b", ⟨"implementation()", .medium, "Uses proxy pattern"⟩),
    ("f851a440", ⟨"admin()", .medium, "Has admin role"⟩),
    ("c0246668", ⟨"setFee(address,bool)", .medium, "Can modify fees"⟩),
    ("8c0b5e22", ⟨"setMaxTxAmount(uint256)", .medium, "Can limit transactions"⟩),
    ("e01af92c", ⟨"setTaxFee(uint256)", .medium, "Can modify tax fees"⟩),
    ("db2e21bc", ⟨"emergencyWithdraw()", .high, "Emergency fund withdrawal"⟩),
    ("5312ea8e", ⟨"emergencyWithdraw(uint256)", .high, "Emergency fund withdrawal"⟩),
    ("00f714ce", ⟨"withdraw(uint256,address)", .high, "Can withdraw funds"⟩),
    ("2e1a7d4d", ⟨"withdraw(uint256)", .medium, "Can withdraw funds"⟩),
    ("51cff8d9", ⟨"withdraw(address)", .high, "Can withdraw to any address"⟩),
    ("83197ef0", ⟨"destroy()", .high, "Can destroy contract"⟩),
    ("41c0e1b5", ⟨"kill()", .high, "Can destroy contract"⟩),
    ("095ea7b3", ⟨"approve(address,uint256)", .medium, "Standard approve (check for max uint)"⟩),
    ("39509351", ⟨"increaseAllowance(address,uint256)", .medium, "Can increase allowance"⟩),
    ("c9567bf9", ⟨"openTrading()", .medium, "Trading can be enabled/disabled"⟩),
    ("c49b9a80", ⟨"setSwapAndLiquifyEnabled(bool)", .medium, "Can manipulate liquidity"⟩),
    ("8ee88c53", ⟨"setMaxWalletSize(uint256)", .medium, "Can limit wallet holdings"⟩),
    ("5c19a95c", ⟨"delegate(address)", .high, "Can delegate to external contract"⟩) ]

/-- DANGEROUS_OPCODES: single-byte opcode markers, in source order. -/
def DANGEROUS_OPCODES : List (String × SigInfo) :=
  [ ("ff", ⟨"SELFDESTRUCT", .high, "Contract can be destroyed"⟩),
    ("f4", ⟨"DELEGATECALL", .high, "Can execute external code"⟩),
    ("fa", ⟨"STATICCALL", .medium, "Makes external calls"⟩),
    ("f2", ⟨"CALLCODE", .high, "Deprecated dangerous opcode"⟩) ]

/- ## Bytecode scanners and ABI keyword matcher -/

/-- Lowercased hex body of a nullable bytecode string:
bytecode ? bytecode.toLowerCase().replace("0x", "") : "". -/
def bytecodeHexOf : Option String → String
  | none => ""
  | some bc => replaceFirst (strToLower bc) "0x"

/-- detectSelectorsInBytecode: scan the bytecode hex for every known
dangerous selector, in table order. -/
def detectSelectorsInBytecode : Option String → List SigInfo
  | none => []
  | some bc =>
    let bytecodeHex := replaceFirst (strToLower bc) "0x"
    DANGEROUS_SELECTORS.filterMap fun entry =>
      if strIncludes bytecodeHex (strToLower entry.1) then some entry.2 else none

/-- detectDangerousOpcodes: the source loop pushes a finding only in the
explicit branches for the ff, f4 and f2 keys, so the medium STATICCALL
entry (fa) can never be detected. -/
def detectDangerousOpcodes : Option String → List SigInfo
  | none => []
  | some bc =>
    let bytecodeHex := replaceFirst (strToLower bc) "0x"
    DANGEROUS_OPCODES.filterMap fun entry =>
      if entry.1 == "ff" && strIncludes bytecodeHex "ff" then some entry.2
      else if entry.1 == "f4" && strIncludes bytecodeHex "f4" then some entry.2
      else if entry.1 == "f2" && strIncludes bytecodeHex "f2" then some entry.2
      else none

/-- getFunctionNames: lowercased names of the function-type ABI entries. -/
def getFunctionNames (abi : List AbiEntry) : List String :=
  (abi.filter fun item => item.type == "function").map fun item => strToLower item.name

/-- Function-name list of a nullable ABI: abi ? getFunctionNames(abi) : []. -/
def functionNamesOf : Option (List AbiEntry) → List String
  | some a => getFunctionNames a
  | none => []

/-- Owner-privilege keyword matches: containment ("includes") mode. -/
def ownerKeywordMatches (names : List String) : List String :=
  names.filter fun name => OWNER_PRIVILEGE_KEYWORDS.any fun kw => strIncludes name kw

/-- High-risk owner keyword matches: containment against the high-risk
keyword vocabulary. -/
def highOwnerKeywordMatches (names : List String) : List String :=
  (ownerKeywordMatches names).filter fun name =>
    HIGH_OWNER_PRIVILEGES.any fun kw => strIncludes name kw

/-- Dangerous-function keyword matches: prefix ("startsWith") mode. -/
def dangerousKeywordMatches (names : List String) : List String :=
  names.filter fun name => DANGEROUS_FUNCTION_KEYWORDS.any fun kw => strStartsWith name kw

/-- describeKeywords: dedupe, take four, strip non-alphanumerics, join. -/
def describeKeywords (ms : List String) : String :=
  String.intercalate ", "
    (((ms.eraseDups).take 4).map fun m => ⟨m.data.filter fun c => c.isAlphanum⟩)

/- ## buildFinding -/

/-- buildFinding: assemble a FindingDetail, capping the penalty at the
indicator's maxPenalty. -/
def buildFinding (key : IndicatorKey) (status : RiskStatus) (reason : String)
    (penalty : Nat) : FindingDetail :=
  let metadata := indicatorMetadata key
  { key := key
    title := metadata.title
    category := metadata.category
    status := status
    reason := reason
    hint := reason
    penalty := min penalty metadata.maxPenalty
    explanation := metadata.explanation }

/- ## Indicator evaluators -/

/-- analyzeVerifiedSource. -/
def analyzeVerifiedSource (info : Option ExplorerContractInfo) : FindingDetail :=
  let metadata := indicatorMetadata .verifiedSource
  let hasParsedAbi : Bool :=
    match info with
    | some i => match i.abi with
      | some l => !l.isEmpty
      | none => false
    | none => false
  let isVerified : Bool :=
    (match info with | some i => i.isVerified | none => false) || hasParsedAbi
  if isVerified then
    buildFinding .verifiedSource .pass "Contract source is verified on the explorer." 0
  else
    match info with
    | none =>
      buildFinding .verifiedSource .warn
        "Could not confirm verification status from explorer." 10
    | some _ =>
      buildFinding .verifiedSource .fail
        "Source is not verified; code cannot be audited easily." metadata.maxPenalty

/-- Proxy-related selectors scanned for in bytecode, in source order
(upgradeTo appears twice in the source literal). -/
def proxySelectors : List String :=
  ["3659cfe6", "4f1ef286", "5c60da1b", "f851a440", "8f283970", "3659cfe6", "52d1902d"]

/-- EIP-1967 implementation storage-slot constant. -/
def eip1967Slot : String :=
  "360894a13ba1a3210667c828492db98dca3e2076cc3735a920a3ca505d382bbc"

def ZERO_ADDRESS : String := "0x0000000000000000000000000000000000000000"

/-- Proxy selectors detected in a bytecode hex body. -/
def detectedProxySelectorsOf (bytecodeHex : String) : List String :=
  proxySelectors.filter fun sel => strIncludes bytecodeHex sel

/-- EIP-1967 slot check: first 16 hex characters of the slot constant. -/
def hasEip1967Of (bytecodeHex : String) : Bool :=
  strIncludes bytecodeHex (eip1967Slot.take 16)

/-- The hasOwner test of analyzeProxy:
Boolean(info?.proxyAdmin && info.proxyAdmin !== ZERO_ADDRESS). -/
def proxyHasOwner : Option ExplorerContractInfo → Bool
  | none => false
  | some i => match i.proxyAdmin with
    | none => false
    | some a => a != "" && a != ZERO_ADDRESS

/-- The isProxy test of analyzeProxy: the explorer proxy flag, OR a
detected proxy selector, OR the EIP-1967 slot prefix. -/
def proxyDetected (info : Option ExplorerContractInfo) (bytecode : Option String) : Bool :=
  (match info with | some i => i.proxy | none => false) ||
  (!(detectedProxySelectorsOf (bytecodeHexOf bytecode)).isEmpty ||
    hasEip1967Of (bytecodeHexOf bytecode))

/-- The hasUpgradeFunction test of analyzeProxy: an upgrade-capable
selector among the detected proxy selectors. -/
def proxyHasUpgradeFunction (bytecode : Option String) : Bool :=
  (detectedProxySelectorsOf (bytecodeHexOf bytecode)).any fun sel =>
    sel == "3659cfe6" || sel == "4f1ef286"

/-- analyzeProxy. -/
def analyzeProxy (info : Option ExplorerContractInfo) (bytecode : Option String) :
    FindingDetail :=
  let metadata := indicatorMetadata .proxy
  let isProxy := proxyDetected info bytecode
  if !isProxy then
    buildFinding .proxy .pass "No proxy pattern detected in Etherscan data or bytecode." 0
  else
    let hasOwner := proxyHasOwner info
    let hasUpgradeFunction := proxyHasUpgradeFunction bytecode
    if hasUpgradeFunction && hasOwner then
      buildFinding .proxy .warn
        "Upgradeable proxy with active admin - contract logic can be changed."
        (min 15 metadata.maxPenalty)
    else if hasUpgradeFunction then
      buildFinding .proxy .warn
        "Upgrade functions detected in bytecode - contract may be upgradeable." 12
    else
      let penalty := if hasOwner then min 12 metadata.maxPenalty else 5
      buildFinding .proxy .warn
        (if hasOwner then "Proxy detected with active admin."
         else "Proxy detected, admin appears renounced.") penalty

/-- Owner-privilege selectors scanned for in bytecode, in source order. -/
def ownerSelectors : List String :=
  [ "f2fde38b", "715018a6", "8da5cb5b", "8456cb59", "3f4ba83a", "44337ea1",
    "537df3b6", "c0246668", "8c0b5e22", "e01af92c", "8ee88c53" ]

/-- High-risk owner-privilege selectors: blacklist and unBlacklist. -/
def highRiskOwnerSelectors : List String :=
  ["44337ea1", "537df3b6"]

/-- Detected owner-privilege selectors of a bytecode. -/
def detectedOwnerSelectorsOf (bytecode : Option String) : List String :=
  ownerSelectors.filter fun sel => strIncludes (bytecodeHexOf bytecode) sel

/-- Detected high-risk owner-privilege selectors of a bytecode. -/
def detectedHighOwnerSelectorsOf (bytecode : Option String) : List String :=
  highRiskOwnerSelectors.filter fun sel => strIncludes (bytecodeHexOf bytecode) sel

/-- The hasHighRisk test of analyzeOwnerPrivileges. -/
def ownerHighRiskSignal (abi : Option (List AbiEntry)) (bytecode : Option String) : Bool :=
  !(highOwnerKeywordMatches (functionNamesOf abi)).isEmpty ||
  !(detectedHighOwnerSelectorsOf bytecode).isEmpty

/-- The hasMediumRisk test of analyzeOwnerPrivileges. -/
def ownerMediumSignal (abi : Option (List AbiEntry)) (bytecode : Option String) : Bool :=
  !(ownerKeywordMatches (functionNamesOf abi)).isEmpty ||
  !(detectedOwnerSelectorsOf bytecode).isEmpty

/-- analyzeOwnerPrivileges. -/
def analyzeOwnerPrivileges (abi : Option (List AbiEntry)) (bytecode : Option String) :
    FindingDetail :=
  let metadata := indicatorMetadata .ownerPrivileges
  let keywordMatches := ownerKeywordMatches (functionNamesOf abi)
  let highRiskKeywordMatches := highOwnerKeywordMatches (functionNamesOf abi)
  let detectedSelectors := detectedOwnerSelectorsOf bytecode
  let detectedHighRiskSelectors := detectedHighOwnerSelectorsOf bytecode
  let hasHighRisk := ownerHighRiskSignal abi bytecode
  let hasMediumRisk := ownerMediumSignal abi bytecode
  if hasHighRisk then
    let reasons :=
      (if !detectedHighRiskSelectors.isEmpty then
        ["blacklist/whitelist capability detected in bytecode"] else []) ++
      (if !highRiskKeywordMatches.isEmpty then
        ["functions: " ++ describeKeywords highRiskKeywordMatches] else [])
    buildFinding .ownerPrivileges .warn
      ("Owner can restrict addresses: " ++ String.intercalate "; " reasons)
      (min 18 metadata.maxPenalty)
  else if hasMediumRisk then
    let count := max keywordMatches.length detectedSelectors.length
    buildFinding .ownerPrivileges .warn
      (toString count ++ " admin function(s) detected via bytecode/ABI analysis.") 8
  else if !(jsTruthyStr bytecode) && abi.isNone then
    buildFinding .ownerPrivileges .warn
      "Cannot inspect owner-only functions because ABI and bytecode unavailable." 10
  else
    buildFinding .ownerPrivileges .pass
      "No sensitive owner-only functions detected in bytecode or ABI." 0

/-- The combined high-risk signal list of analyzeDangerousFunctions:
high-risk selector matches followed by high-risk opcode matches. -/
def allHighRiskOf (bytecode : Option String) : List SigInfo :=
  ((detectSelectorsInBytecode bytecode).filter fun f => f.risk == .high) ++
  ((detectDangerousOpcodes bytecode).filter fun f => f.risk == .high)

/-- The medium-risk signal list of analyzeDangerousFunctions: medium-risk
selector matches (detected opcodes are never medium). -/
def allMediumRiskOf (bytecode : Option String) : List SigInfo :=
  (detectSelectorsInBytecode bytecode).filter fun f => f.risk == .medium

/-- analyzeDangerousFunctions.  The ownerFinding parameter of the source is
never read by the body; it is kept to mirror the call shape. -/
def analyzeDangerousFunctions (abi : Option (List AbiEntry)) (bytecode : Option String)
    (_ownerFinding : Option FindingDetail) : FindingDetail :=
  let metadata := indicatorMetadata .dangerousFunctions
  if !(jsTruthyStr bytecode) && abi.isNone then
    buildFinding .dangerousFunctions .warn
      "Bytecode/ABI unavailable, cannot scan for red-flag functions." 12
  else
    let keywordMatches := dangerousKeywordMatches (functionNamesOf abi)
    let allHighRisk := allHighRiskOf bytecode
    let allMediumRisk := allMediumRiskOf bytecode
    if allHighRisk.length ≥ 2 then
      buildFinding .dangerousFunctions .fail
        (String.intercalate "; " ((allHighRisk.take 3).map fun f => f.description))
        metadata.maxPenalty
    else if allHighRisk.length = 1 then
      buildFinding .dangerousFunctions .warn
        ("High-risk capability: " ++
          (match allHighRisk.head? with | some f => f.description | none => "")) 18
    else if allMediumRisk.length ≥ 3 then
      buildFinding .dangerousFunctions .warn
        ("Multiple admin capabilities: " ++
          String.intercalate "; " ((allMediumRisk.take 3).map fun f => f.description)) 12
    else if allMediumRisk.length > 0 || keywordMatches.length > 0 then
      let desc :=
        if allMediumRisk.length > 0 then
          match allMediumRisk.head? with | some f => f.description | none => ""
        else "Functions: " ++ describeKeywords keywordMatches
      buildFinding .dangerousFunctions .warn ("Admin capability detected: " ++ desc) 8
    else
      buildFinding .dangerousFunctions .pass
        "No dangerous function selectors or opcodes detected in bytecode." 0

/- ## runFindings and the penalty aggregator -/

/-- The four findings returned by runFindings in the latest analyzer
variant (the holders-based informational findings are not computed). -/
structure FindingsMap where
  verifiedSource : FindingDetail
  proxy : FindingDetail
  ownerPrivileges : FindingDetail
  dangerousFunctions : FindingDetail
deriving DecidableEq

/-- runFindings over an input snapshot. -/
def runFindings (bytecode : Option String) (abi : Option (List AbiEntry))
    (explorerInfo : Option ExplorerContractInfo) : FindingsMap :=
  let verifiedSource := analyzeVerifiedSource explorerInfo
  let proxy := analyzeProxy explorerInfo bytecode
  let ownerPrivileges := analyzeOwnerPrivileges abi bytecode
  let dangerousFunctions := analyzeDangerousFunctions abi bytecode (some ownerPrivileges)
  { verifiedSource := verifiedSource
    proxy := proxy
    ownerPrivileges := ownerPrivileges
    dangerousFunctions := dangerousFunctions }

/-- JavaScript lookup findings[key] on the record returned by runFindings:
the informational keys are not present (undefined). -/
def findingFor (f : FindingsMap) : IndicatorKey → Option FindingDetail
  | .verifiedSource => some f.verifiedSource
  | .proxy => some f.proxy
  | .ownerPrivileges => some f.ownerPrivileges
  | .dangerousFunctions => some f.dangerousFunctions
  | .liquidity => none
  | .holderDistribution => none

/-- The four scoring indicator keys, in source order. -/
def scoringIndicators : List IndicatorKey :=
  [.verifiedSource, .proxy, .ownerPrivileges, .dangerousFunctions]

/-- totalPenalty: scoringIndicators.reduce((sum, key) =>
sum + (findings[key]?.penalty ?? 0), 0). -/
def totalPenalty (findings : IndicatorKey → Option FindingDetail) : Nat :=
  scoringIndicators.foldl
    (fun sum key => sum + (match findings key with | some f => f.penalty | none => 0)) 0

/-- score: Math.max(0, 100 - totalPenalty). -/
def scoreOf (findings : IndicatorKey → Option FindingDetail) : Int :=
  max 0 (100 - (totalPenalty findings : Int))

/-- Risk label of the aggregate score. -/
inductive RiskLabel where
  | low
  | medium
  | high
deriving DecidableEq

/-- scoreToLabel. -/
def scoreToLabel (score : Int) : RiskLabel :=
  if score ≥ 80 then .low
  else if score ≥ 50 then .medium
  else .high

/-- Aggregate score of an input snapshot, as computed by analyzeContract. -/
def analysisScore (bytecode : Option String) (abi : Option (List AbiEntry))
    (explorerInfo : Option ExplorerContractInfo) : Int :=
  scoreOf (findingFor (runFindings bytecode abi explorerInfo))

/-- Aggregate label of an input snapshot, as computed by analyzeContract. -/
def analysisLabel (bytecode : Option String) (abi : Option (List AbiEntry))
    (explorerInfo : Option ExplorerContractInfo) : RiskLabel :=
  scoreToLabel (analysisScore bytecode abi explorerInfo)

/-- Mathematical clamp used by the specification formula. -/
def clamp (lo hi x : Int) : Int :=
  min hi (max lo x)

/- ## Helper lemmas -/

lemma buildFinding_penalty_le (k : IndicatorKey) (s : RiskStatus) (r : String) (p : Nat) :
    (buildFinding k s r p).penalty ≤ (indicatorMetadata k).maxPenalty :=
  Nat.min_le_right _ _

lemma analyzeVerifiedSource_penalty_le (info : Option ExplorerContractInfo) :
    (analyzeVerifiedSource info).penalty ≤ (indicatorMetadata .verifiedSource).maxPenalty := by
  simp only [analyzeVerifiedSource]
  repeat' split
  all_goals simp only [buildFinding]
  all_goals exact Nat.min_le_right _ _

lemma analyzeProxy_penalty_le (info : Option ExplorerContractInfo)
    (bytecode : Option String) :
    (analyzeProxy info bytecode).penalty ≤ (indicatorMetadata .proxy).maxPenalty := by
  simp only [analyzeProxy]
  repeat' split
  all_goals simp only [buildFinding]
  all_goals exact Nat.min_le_right _ _

lemma analyzeOwnerPrivileges_penalty_le (abi : Option (List AbiEntry))
    (bytecode : Option String) :
    (analyzeOwnerPrivileges abi bytecode).penalty ≤
      (indicatorMetadata .ownerPrivileges).maxPenalty := by
  simp only [analyzeOwnerPrivileges]
  repeat' split
  all_goals simp only [buildFinding]
  all_goals exact Nat.min_le_right _ _

lemma analyzeDangerousFunctions_penalty_le (abi : Option (List AbiEntry))
    (bytecode : Option String) (ownerF : Option FindingDetail) :
    (analyzeDangerousFunctions abi bytecode ownerF).penalty ≤
      (indicatorMetadata .dangerousFunctions).maxPenalty := by
  simp only [analyzeDangerousFunctions]
  repeat' split
  all_goals simp only [buildFinding]
  all_goals exact Nat.min_le_right _ _

lemma totalPenalty_runFindings (bytecode : Option String) (abi : Option (List AbiEntry))
    (info : Option ExplorerContractInfo) :
    totalPenalty (findingFor (runFindings bytecode abi info)) =
      (analyzeVerifiedSource info).penalty + (analyzeProxy info bytecode).penalty +
      (analyzeOwnerPrivileges abi bytecode).penalty +
      (analyzeDangerousFunctions abi bytecode
        (some (analyzeOwnerPrivileges abi bytecode))).penalty := by
  simp [totalPenalty, scoringIndicators, findingFor, runFindings]

lemma scoreToLabel_iff (x : Int) :
    (scoreToLabel x = .low ↔ 80 ≤ x) ∧
    (scoreToLabel x = .medium ↔ 50 ≤ x ∧ x < 80) ∧
    (scoreToLabel x = .high ↔ x < 50) := by
  unfold scoreToLabel
  split_ifs with h1 h2 <;> refine ⟨?_, ?_, ?_⟩ <;> simp <;> omega

/- ## Claim theorems -/

/-- C2: For every indicator key and every input (any combination of
null and non-null bytecode, ABI and explorerInfo), the produced Finding
satisfies 0 <= penalty <= maxPenalty(key), where maxPenalty is 30 for
VerifiedSource, 15 for Proxy, 20 for OwnerPrivileges and 30 for
DangerousFunctions. -/
theorem finding_penalty_within_max (bytecode : Option String)
    (abi : Option (List AbiEntry)) (info : Option ExplorerContractInfo)
    (k : IndicatorKey) (f : FindingDetail)
    (h : findingFor (runFindings bytecode abi info) k = some f) :
    0 ≤ f.penalty ∧ f.penalty ≤ (indicatorMetadata k).maxPenalty ∧
    (indicatorMetadata .verifiedSource).maxPenalty = 30 ∧
    (indicatorMetadata .proxy).maxPenalty = 15 ∧
    (indicatorMetadata .ownerPrivileges).maxPenalty = 20 ∧
    (indicatorMetadata .dangerousFunctions).maxPenalty = 30 := by
  refine ⟨Nat.zero_le _, ?_, rfl, rfl, rfl, rfl⟩
  cases k with
  | verifiedSource =>
    simp only [runFindings, findingFor, Option.some.injEq] at h
    exact h ▸ analyzeVerifiedSource_penalty_le info
  | proxy =>
    simp only [runFindings, findingFor, Option.some.injEq] at h
    exact h ▸ analyzeProxy_penalty_le info bytecode
  | ownerPrivileges =>
    simp only [runFindings, findingFor, Option.some.injEq] at h
    exact h ▸ analyzeOwnerPrivileges_penalty_le abi bytecode
  | dangerousFunctions =>
    simp only [runFindings, findingFor, Option.some.injEq] at h
    exact h ▸ analyzeDangerousFunctions_penalty_le abi bytecode _
  | liquidity => simp [runFindings, findingFor] at h
  | holderDistribution => simp [runFindings, findingFor] at h

/-- C2 witness: the theorem applied to the all-null snapshot at the
VerifiedSource key. -/
theorem finding_penalty_within_max_witness :
    0 ≤ (analyzeVerifiedSource none).penalty ∧
    (analyzeVerifiedSource none).penalty ≤
      (indicatorMetadata .verifiedSource).maxPenalty ∧
    (indicatorMetadata .verifiedSource).maxPenalty = 30 ∧
    (indicatorMetadata .proxy).maxPenalty = 15 ∧
    (indicatorMetadata .ownerPrivileges).maxPenalty = 20 ∧
    (indicatorMetadata .dangerousFunctions).maxPenalty = 30 :=
  finding_penalty_within_max none none none .verifiedSource
    (analyzeVerifiedSource none) rfl

/-- C7 counterexample: with bytecode, ABI and explorerInfo all null, the
Proxy evaluator returns a Pass finding with penalty 0, so it is not true
that every evaluator returns Warn on absent data. -/
theorem missing_data_proxy_pass_counterexample :
    (analyzeProxy none none).status = .pass ∧ (analyzeProxy none none).penalty = 0 := by
  decide

/-- C7 amended: on the all-null snapshot, the VerifiedSource,
OwnerPrivileges and DangerousFunctions evaluators each return a Warn
finding with their documented inconclusive penalties (10, 10 and 12),
never Pass or Fail; the Proxy evaluator instead returns Pass with
penalty 0. -/
theorem missing_data_routing :
    (analyzeVerifiedSource none).status = .warn ∧
    (analyzeVerifiedSource none).penalty = 10 ∧
    (analyzeOwnerPrivileges none none).status = .warn ∧
    (analyzeOwnerPrivileges none none).penalty = 10 ∧
    (analyzeDangerousFunctions none none none).status = .warn ∧
    (analyzeDangerousFunctions none none none).penalty = 12 ∧
    (analyzeProxy none none).status = .pass ∧
    (analyzeProxy none none).penalty = 0 := by
  decide

/-- C9: evaluation is deterministic: runFindings on byte-identical input
snapshots produces identical findings; the result is a pure function of
the snapshot alone. -/
theorem runFindings_deterministic (b₁ b₂ : Option String)
    (a₁ a₂ : Option (List AbiEntry)) (i₁ i₂ : Option ExplorerContractInfo)
    (hb : b₁ = b₂) (ha : a₁ = a₂) (hi : i₁ = i₂) :
    runFindings b₁ a₁ i₁ = runFindings b₂ a₂ i₂ := by
  subst hb; subst ha; subst hi; rfl

/-- C9 witness: the determinism theorem applied to the all-null snapshot. -/
theorem runFindings_deterministic_witness :
    runFindings none none none = runFindings none none none :=
  runFindings_deterministic none none none none none none rfl rfl rfl

/-- C10 (implicit): for every input, the total penalty of the four
scoring indicators is at most 30 + 15 + 20 + 30 = 95, so the aggregate
score is at least 5, the lower clamp at 0 never fires (the score always
equals 100 - totalPenalty), and a score of 0 is never returned. -/
theorem score_at_least_five (bytecode : Option String)
    (abi : Option (List AbiEntry)) (info : Option ExplorerContractInfo) :
    totalPenalty (findingFor (runFindings bytecode abi info)) ≤ 95 ∧
    5 ≤ analysisScore bytecode abi info ∧
    analysisScore bytecode abi info =
      100 - (totalPenalty (findingFor (runFindings bytecode abi info)) : Int) ∧
    analysisScore bytecode abi info ≠ 0 := by
  have h1 := analyzeVerifiedSource_penalty_le info
  have h2 := analyzeProxy_penalty_le info bytecode
  have h3 := analyzeOwnerPrivileges_penalty_le abi bytecode
  have h4 := analyzeDangerousFunctions_penalty_le abi bytecode
    (some (analyzeOwnerPrivileges abi bytecode))
  simp only [indicatorMetadata] at h1 h2 h3 h4
  have ht := totalPenalty_runFindings bytecode abi info
  have hbound : totalPenalty (findingFor (runFindings bytecode abi info)) ≤ 95 := by
    omega
  refine ⟨hbound, ?_, ?_, ?_⟩ <;>
    simp only [analysisScore, scoreOf] <;> omega

/-- C1: For every input snapshot, the aggregate score equals
clamp(100 - sum of the penalties of the four scoring indicators, 0, 100);
the total penalty reads only the four scoring keys, so the informational
indicators (liquidity, holderDistribution) never contribute to the sum;
and the label is Low exactly when score >= 80, Medium exactly when
50 <= score < 80, and High otherwise. -/
theorem score_clamp_and_label (bytecode : Option String)
    (abi : Option (List AbiEntry)) (info : Option ExplorerContractInfo) :
    analysisScore bytecode abi info =
      clamp 0 100
        (100 - (totalPenalty (findingFor (runFindings bytecode abi info)) : Int)) ∧
    (∀ g : IndicatorKey → Option FindingDetail,
      (∀ k ∈ scoringIndicators, g k = findingFor (runFindings bytecode abi info) k) →
      totalPenalty g = totalPenalty (findingFor (runFindings bytecode abi info))) ∧
    IndicatorKey.liquidity ∉ scoringIndicators ∧
    IndicatorKey.holderDistribution ∉ scoringIndicators ∧
    (analysisLabel bytecode abi info = .low ↔ 80 ≤ analysisScore bytecode abi info) ∧
    (analysisLabel bytecode abi info = .medium ↔
      50 ≤ analysisScore bytecode abi info ∧ analysisScore bytecode abi info < 80) ∧
    (analysisLabel bytecode abi info = .high ↔ analysisScore bytecode abi info < 50) := by
  refine ⟨?_, ?_, by decide, by decide, ?_, ?_, ?_⟩
  · simp only [analysisScore, scoreOf, clamp]
    omega
  · intro g hg
    have h1 := hg .verifiedSource (by simp [scoringIndicators])
    have h2 := hg .proxy (by simp [scoringIndicators])
    have h3 := hg .ownerPrivileges (by simp [scoringIndicators])
    have h4 := hg .dangerousFunctions (by simp [scoringIndicators])
    simp only [totalPenalty, scoringIndicators, List.foldl, h1, h2, h3, h4]
  · exact (scoreToLabel_iff (analysisScore bytecode abi info)).1
  · exact (scoreToLabel_iff (analysisScore bytecode abi info)).2.1
  · exact (scoreToLabel_iff (analysisScore bytecode abi info)).2.2

/-- C1 witness: the clamp identity and the invariance of the total
penalty under changes away from the scoring keys, at the all-null
snapshot. -/
theorem score_clamp_and_label_witness :
    analysisScore none none none =
      clamp 0 100 (100 - (totalPenalty (findingFor (runFindings none none none)) : Int)) ∧
    totalPenalty (fun k => findingFor (runFindings none none none) k) =
      totalPenalty (findingFor (runFindings none none none)) ∧
    (analysisLabel none none none = .medium ↔
      50 ≤ analysisScore none none none ∧ analysisScore none none none < 80) :=
  ⟨(score_clamp_and_label none none none).1,
   (score_clamp_and_label none none none).2.1 _ (fun _ _ => rfl),
   (score_clamp_and_label none none none).2.2.2.2.2.1⟩

/-- C4: the VerifiedSource evaluator returns Pass with penalty 0 exactly
when the explorer verification flag is set or the parsed ABI list is
non-empty (each alone sufficient); it returns Warn with penalty 10 when
explorerInfo is entirely absent; and it returns Fail with penalty 30
in every other case (explorerInfo present, not verified, ABI empty or
absent). -/
theorem verified_source_cases (info : Option ExplorerContractInfo) :
    ((analyzeVerifiedSource info).status = .pass ∧
        (analyzeVerifiedSource info).penalty = 0 ↔
      (∃ i, info = some i ∧ i.isVerified = true) ∨
      (∃ i l, info = some i ∧ i.abi = some l ∧ l ≠ [])) ∧
    (info = none →
      (analyzeVerifiedSource info).status = .warn ∧
      (analyzeVerifiedSource info).penalty = 10) ∧
    (∀ i, info = some i → i.isVerified = false → (∀ l, i.abi = some l → l = []) →
      (analyzeVerifiedSource info).status = .fail ∧
      (analyzeVerifiedSource info).penalty = 30) := by
  rcases info with _ | ⟨iv, iabi, impl, prox, cc, pa, cn, sc⟩
  · refine ⟨by simp [analyzeVerifiedSource, buildFinding], fun _ => by decide, ?_⟩
    intro i h
    cases h
  · rcases iabi with _ | l
    · cases iv
      · refine ⟨by simp [analyzeVerifiedSource, buildFinding], by simp, ?_⟩
        intro i h _ _
        cases h
        exact ⟨rfl, rfl⟩
      · refine ⟨by simp [analyzeVerifiedSource, buildFinding], by simp, ?_⟩
        intro i h hv _
        cases h
        cases hv
    · cases l with
      | nil =>
        cases iv
        · refine ⟨?_, by simp, ?_⟩
          · simp [analyzeVerifiedSource, buildFinding]
          · intro i h _ _
            cases h
            exact ⟨rfl, rfl⟩
        · refine ⟨?_, by simp, ?_⟩
          · simp [analyzeVerifiedSource, buildFinding]
          · intro i h hv _
            cases h
            cases hv
      | cons e t =>
        cases iv
        · refine ⟨?_, by simp, ?_⟩
          · simp [analyzeVerifiedSource, buildFinding]
          · intro i h _ habi
            cases h
            cases habi (e :: t) rfl
        · refine ⟨?_, by simp, ?_⟩
          · simp [analyzeVerifiedSource, buildFinding]
          · intro i h hv _
            cases h
            cases hv

/-- C4 witness: an explorer record with the verification flag set and an
empty parsed ABI list still yields Pass with penalty 0 (the flag alone
is sufficient), via the Pass characterization. -/
theorem verified_source_cases_witness :
    (analyzeVerifiedSource
        (some ⟨true, some [], none, false, none, none, none, none⟩)).status = .pass ∧
    (analyzeVerifiedSource
        (some ⟨true, some [], none, false, none, none, none, none⟩)).penalty = 0 :=
  (verified_source_cases
      (some ⟨true, some [], none, false, none, none, none, none⟩)).1.mpr
    (Or.inl ⟨_, rfl, rfl⟩)

/-- Under the Hex type invariant (every present bytecode string starts
with 0x), the missing-data guard of the evaluators is true exactly for
the all-null combination. -/
lemma missingData_guard_false (abi : Option (List AbiEntry)) (bytecode : Option String)
    (hhex : ∀ s, bytecode = some s → strStartsWith s "0x" = true)
    (hne : ¬(abi = none ∧ bytecode = none)) :
    (!(jsTruthyStr bytecode) && abi.isNone) = false := by
  rcases bytecode with _ | s
  · rcases abi with _ | a
    · exact absurd ⟨rfl, rfl⟩ hne
    · simp [jsTruthyStr]
  · have h := hhex s rfl
    have hs : s ≠ "" := by
      rintro rfl
      exact absurd h (by decide)
    simp [jsTruthyStr, hs]

/-- C3: the DangerousFunctions evaluator follows the first-match ladder:
absent ABI and bytecode gives Warn 12; two or more high-risk signals
(selectors plus opcodes) give Fail 30; exactly one high-risk signal gives
Warn 18; three or more medium-risk signals give Warn 12; any medium-risk
signal or ABI keyword match gives Warn 8; otherwise Pass 0.  In
particular, bytecode containing both the mint selector and the
DELEGATECALL opcode marker yields Fail with penalty 30. -/
theorem dangerous_functions_ladder (abi : Option (List AbiEntry))
    (bytecode : Option String) (ownerF : Option FindingDetail)
    (hhex : ∀ s, bytecode = some s → strStartsWith s "0x" = true) :
    (abi = none ∧ bytecode = none →
      (analyzeDangerousFunctions abi bytecode ownerF).status = .warn ∧
      (analyzeDangerousFunctions abi bytecode ownerF).penalty = 12) ∧
    (¬(abi = none ∧ bytecode = none) →
      (2 ≤ (allHighRiskOf bytecode).length →
        (analyzeDangerousFunctions abi bytecode ownerF).status = .fail ∧
        (analyzeDangerousFunctions abi bytecode ownerF).penalty = 30) ∧
      ((allHighRiskOf bytecode).length = 1 →
        (analyzeDangerousFunctions abi bytecode ownerF).status = .warn ∧
        (analyzeDangerousFunctions abi bytecode ownerF).penalty = 18) ∧
      ((allHighRiskOf bytecode).length = 0 ∧ 3 ≤ (allMediumRiskOf bytecode).length →
        (analyzeDangerousFunctions abi bytecode ownerF).status = .warn ∧
        (analyzeDangerousFunctions abi bytecode ownerF).penalty = 12) ∧
      ((allHighRiskOf bytecode).length = 0 ∧ (allMediumRiskOf bytecode).length < 3 ∧
          (0 < (allMediumRiskOf bytecode).length ∨
           0 < (dangerousKeywordMatches (functionNamesOf abi)).length) →
        (analyzeDangerousFunctions abi bytecode ownerF).status = .warn ∧
        (analyzeDangerousFunctions abi bytecode ownerF).penalty = 8) ∧
      ((allHighRiskOf bytecode).length = 0 ∧ (allMediumRiskOf bytecode).length = 0 ∧
          (dangerousKeywordMatches (functionNamesOf abi)).length = 0 →
        (analyzeDangerousFunctions abi bytecode ownerF).status = .pass ∧
        (analyzeDangerousFunctions abi bytecode ownerF).penalty = 0)) ∧
    (analyzeDangerousFunctions none (some "0x40c10f19f4") none).status = .fail ∧
    (analyzeDangerousFunctions none (some "0x40c10f19f4") none).penalty = 30 := by
  refine ⟨?_, ?_, by decide, by decide⟩
  · rintro ⟨rfl, rfl⟩
    exact ⟨rfl, rfl⟩
  · intro hne
    have hg := missingData_guard_false abi bytecode hhex hne
    simp only [analyzeDangerousFunctions, hg, Bool.false_eq_true, if_false]
    refine ⟨?_, ?_, ?_, ?_, ?_⟩
    · intro h
      rw [if_pos h]
      exact ⟨rfl, rfl⟩
    · intro h
      rw [if_neg (by omega), if_pos h]
      exact ⟨rfl, rfl⟩
    · rintro ⟨h0, h3⟩
      rw [if_neg (by omega), if_neg (by omega), if_pos h3]
      exact ⟨rfl, rfl⟩
    · rintro ⟨h0, hlt, hor⟩
      rw [if_neg (by omega), if_neg (by omega), if_neg (by omega),
        if_pos (by simp only [Bool.or_eq_true, decide_eq_true_eq]; exact hor)]
      exact ⟨rfl, rfl⟩
    · rintro ⟨h0, hm0, hk0⟩
      rw [if_neg (by omega), if_neg (by omega), if_neg (by omega),
        if_neg (by simp only [Bool.or_eq_true, decide_eq_true_eq]; omega)]
      exact ⟨rfl, rfl⟩

/-- C3 witness: the ladder theorem applied to a bytecode holding the mint
selector 40c10f19 and the DELEGATECALL marker f4, two distinct high-risk
signals, giving Fail with penalty 30. -/
theorem dangerous_functions_ladder_witness :
    (analyzeDangerousFunctions none (some "0x40c10f19f4") none).status = .fail ∧
    (analyzeDangerousFunctions none (some "0x40c10f19f4") none).penalty = 30 := by
  have h := dangerous_functions_ladder none (some "0x40c10f19f4") none
    (by intro s hs; cases hs; decide)
  exact (h.2.1 (by simp)).1 (by decide)

lemma filter_isEmpty_false_iff {α : Type} (p : α → Bool) (l : List α) :
    ((l.filter p).isEmpty = false) ↔ ∃ x ∈ l, p x = true := by
  induction l with
  | nil => simp
  | cons a t ih =>
    by_cases h : p a = true
    · simp [List.filter_cons, h]
    · simp [List.filter_cons, h, ih]

lemma any_filter_eq {α : Type} (p q : α → Bool) (l : List α) :
    (l.filter p).any q = l.any fun a => p a && q a := by
  induction l with
  | nil => rfl
  | cons a t ih =>
    by_cases h : p a = true
    · simp [List.filter_cons, h, ih]
    · simp [List.filter_cons, h, ih]

/-- Modelled from the claim wording for the OwnerPrivileges decision:
the high-risk subset is exactly the blacklist/unBlacklist signals (name
matches containing blacklist or unblacklist, and the two blacklist
selectors); the rest of the ladder is as claimed.  Compared against
analyzeOwnerPrivileges, which instead treats every whitelist keyword
match as high-risk. -/
def ownerPrivilegesClaimDecision (abi : Option (List AbiEntry))
    (bytecode : Option String) : RiskStatus × Nat :=
  let keywordMatches := ownerKeywordMatches (functionNamesOf abi)
  let highKw := keywordMatches.filter fun name =>
    strIncludes name "blacklist" || strIncludes name "unblacklist"
  let detectedSelectors := detectedOwnerSelectorsOf bytecode
  let highSel := detectedHighOwnerSelectorsOf bytecode
  if !highKw.isEmpty || !highSel.isEmpty then (.warn, min 18 20)
  else if !keywordMatches.isEmpty || !detectedSelectors.isEmpty then (.warn, 8)
  else if abi.isNone && bytecode.isNone then (.warn, 10)
  else (.pass, 0)

/-- C6 counterexample: an ABI whose only function is named whitelist
carries no blacklist or unBlacklist signal, so the claimed decision
ladder gives Warn with penalty 8, but the code classifies any whitelist
keyword match as high-risk and returns Warn with penalty 18. -/
theorem owner_privileges_whitelist_counterexample :
    (analyzeOwnerPrivileges (some [⟨"function", "whitelist", "nonpayable"⟩]) none).status
        = .warn ∧
    (analyzeOwnerPrivileges (some [⟨"function", "whitelist", "nonpayable"⟩]) none).penalty
        = 18 ∧
    ownerPrivilegesClaimDecision (some [⟨"function", "whitelist", "nonpayable"⟩]) none
        = (.warn, 8) := by
  decide

/-- C6 amended: the high-risk subset of the OwnerPrivileges evaluator is
the keyword matches containing blacklist or whitelist together with the
bytecode selectors 44337ea1 (blacklist) and 537df3b6 (unBlacklist); any
high-risk signal gives Warn with penalty min(18, 20) = 18; else any
medium signal gives Warn 8; else if both ABI and bytecode are absent it
gives Warn 10; otherwise Pass 0.  In particular, bytecode containing
44337ea1 with a null ABI yields Warn with penalty 18. -/
theorem owner_privileges_ladder (abi : Option (List AbiEntry))
    (bytecode : Option String)
    (hhex : ∀ s, bytecode = some s → strStartsWith s "0x" = true) :
    (ownerHighRiskSignal abi bytecode = true ↔
      (∃ n ∈ ownerKeywordMatches (functionNamesOf abi),
        strIncludes n "blacklist" = true ∨ strIncludes n "whitelist" = true) ∨
      strIncludes (bytecodeHexOf bytecode) "44337ea1" = true ∨
      strIncludes (bytecodeHexOf bytecode) "537df3b6" = true) ∧
    (ownerHighRiskSignal abi bytecode = true →
      (analyzeOwnerPrivileges abi bytecode).status = .warn ∧
      (analyzeOwnerPrivileges abi bytecode).penalty = 18) ∧
    (ownerHighRiskSignal abi bytecode = false → ownerMediumSignal abi bytecode = true →
      (analyzeOwnerPrivileges abi bytecode).status = .warn ∧
      (analyzeOwnerPrivileges abi bytecode).penalty = 8) ∧
    (ownerHighRiskSignal abi bytecode = false → ownerMediumSignal abi bytecode = false →
      abi = none ∧ bytecode = none →
      (analyzeOwnerPrivileges abi bytecode).status = .warn ∧
      (analyzeOwnerPrivileges abi bytecode).penalty = 10) ∧
    (ownerHighRiskSignal abi bytecode = false → ownerMediumSignal abi bytecode = false →
      ¬(abi = none ∧ bytecode = none) →
      (analyzeOwnerPrivileges abi bytecode).status = .pass ∧
      (analyzeOwnerPrivileges abi bytecode).penalty = 0) ∧
    (analyzeOwnerPrivileges none (some "0x44337ea1")).status = .warn ∧
    (analyzeOwnerPrivileges none (some "0x44337ea1")).penalty = 18 := by
  refine ⟨?_, ?_, ?_, ?_, ?_, by decide, by decide⟩
  · simp only [ownerHighRiskSignal, highOwnerKeywordMatches, detectedHighOwnerSelectorsOf,
      Bool.or_eq_true, Bool.not_eq_true', filter_isEmpty_false_iff, HIGH_OWNER_PRIVILEGES,
      highRiskOwnerSelectors, List.any_cons, List.any_nil, List.mem_cons,
      List.not_mem_nil, Bool.or_false, or_false, false_or]
    constructor
    · rintro (⟨n, hn, hp⟩ | ⟨s, hs | hs, hp⟩)
      · exact Or.inl ⟨n, hn, by simpa [Bool.or_eq_true] using hp⟩
      · subst hs; exact Or.inr (Or.inl hp)
      · subst hs; exact Or.inr (Or.inr hp)
    · rintro (⟨n, hn, hp⟩ | hp | hp)
      · exact Or.inl ⟨n, hn, by simpa [Bool.or_eq_true] using hp⟩
      · exact Or.inr ⟨"44337ea1", Or.inl rfl, hp⟩
      · exact Or.inr ⟨"537df3b6", Or.inr rfl, hp⟩
  · intro h
    simp only [analyzeOwnerPrivileges]
    rw [if_pos h]
    exact ⟨rfl, rfl⟩
  · intro hh hm
    simp only [analyzeOwnerPrivileges]
    rw [if_neg (by simp [hh]), if_pos hm]
    exact ⟨rfl, rfl⟩
  · rintro hh hm ⟨rfl, rfl⟩
    decide
  · intro hh hm hne
    have hg := missingData_guard_false abi bytecode hhex hne
    simp only [analyzeOwnerPrivileges]
    rw [if_neg (by simp [hh]), if_neg (by simp [hm]), if_neg (by simp [hg])]
    exact ⟨rfl, rfl⟩

/-- C6 witness: the amended ladder applied to bytecode containing the
blacklist selector 44337ea1 with a null ABI. -/
theorem owner_privileges_ladder_witness :
    (analyzeOwnerPrivileges none (some "0x44337ea1")).status = .warn ∧
    (analyzeOwnerPrivileges none (some "0x44337ea1")).penalty = 18 := by
  have h := owner_privileges_ladder none (some "0x44337ea1")
    (by intro s hs; cases hs; decide)
  exact h.2.1 (by decide)

lemma filter_isEmpty_eq {α : Type} (p : α → Bool) (l : List α) :
    (l.filter p).isEmpty = !(l.any p) := by
  induction l with
  | nil => rfl
  | cons a t ih => by_cases h : p a = true <;> simp [List.filter_cons, h, ih]

lemma proxyDetected_iff (info : Option ExplorerContractInfo) (bytecode : Option String) :
    proxyDetected info bytecode = true ↔
      (∃ i, info = some i ∧ i.proxy = true) ∨
      strIncludes (bytecodeHexOf bytecode) "3659cfe6" = true ∨
      strIncludes (bytecodeHexOf bytecode) "4f1ef286" = true ∨
      strIncludes (bytecodeHexOf bytecode) "5c60da1b" = true ∨
      strIncludes (bytecodeHexOf bytecode) "f851a440" = true ∨
      strIncludes (bytecodeHexOf bytecode) "8f283970" = true ∨
      strIncludes (bytecodeHexOf bytecode) "52d1902d" = true ∨
      strIncludes (bytecodeHexOf bytecode) "360894a13ba1a321" = true := by
  have hslot : eip1967Slot.take 16 = "360894a13ba1a321" := by decide
  rcases info with _ | i <;>
    simp only [proxyDetected, detectedProxySelectorsOf, hasEip1967Of, hslot,
      filter_isEmpty_eq, Bool.not_not, proxySelectors, List.any_cons, List.any_nil,
      Bool.or_eq_true, Bool.or_false, Option.some.injEq, exists_eq_left',
      false_or, reduceCtorEq, false_and, exists_false] <;>
    tauto

/-- C5: the Proxy evaluator treats a proxy as present exactly when the
explorer proxy flag is set, or the bytecode hex contains one of the six
proxy selectors, or the EIP-1967 slot prefix; absent any signal it
returns Pass 0; when present it returns Warn with penalty 15 on an
upgrade-capable selector with a non-zero proxyAdmin, 12 on an
upgrade-capable selector without a known admin, and otherwise 12 with a
non-zero proxyAdmin and 5 without; an upgrade-capable selector means
upgradeTo (3659cfe6) or upgradeToAndCall (4f1ef286) found in bytecode. -/
theorem proxy_ladder (info : Option ExplorerContractInfo) (bytecode : Option String) :
    (proxyDetected info bytecode = true ↔
      (∃ i, info = some i ∧ i.proxy = true) ∨
      strIncludes (bytecodeHexOf bytecode) "3659cfe6" = true ∨
      strIncludes (bytecodeHexOf bytecode) "4f1ef286" = true ∨
      strIncludes (bytecodeHexOf bytecode) "5c60da1b" = true ∨
      strIncludes (bytecodeHexOf bytecode) "f851a440" = true ∨
      strIncludes (bytecodeHexOf bytecode) "8f283970" = true ∨
      strIncludes (bytecodeHexOf bytecode) "52d1902d" = true ∨
      strIncludes (bytecodeHexOf bytecode) "360894a13ba1a321" = true) ∧
    (proxyDetected info bytecode = false →
      (analyzeProxy info bytecode).status = .pass ∧
      (analyzeProxy info bytecode).penalty = 0) ∧
    (proxyDetected info bytecode = true →
      (analyzeProxy info bytecode).status = .warn ∧
      (proxyHasUpgradeFunction bytecode = true → proxyHasOwner info = true →
        (analyzeProxy info bytecode).penalty = 15) ∧
      (proxyHasUpgradeFunction bytecode = true → proxyHasOwner info = false →
        (analyzeProxy info bytecode).penalty = 12) ∧
      (proxyHasUpgradeFunction bytecode = false → proxyHasOwner info = true →
        (analyzeProxy info bytecode).penalty = 12) ∧
      (proxyHasUpgradeFunction bytecode = false → proxyHasOwner info = false →
        (analyzeProxy info bytecode).penalty = 5)) ∧
    (proxyHasUpgradeFunction bytecode = true ↔
      strIncludes (bytecodeHexOf bytecode) "3659cfe6" = true ∨
      strIncludes (bytecodeHexOf bytecode) "4f1ef286" = true) := by
  refine ⟨proxyDetected_iff info bytecode, ?_, ?_, ?_⟩
  · intro h
    exact ⟨by simp [analyzeProxy, h, buildFinding],
           by simp [analyzeProxy, h, buildFinding]⟩
  · intro h
    refine ⟨?_, fun hu ho => ?_, fun hu ho => ?_, fun hu ho => ?_, fun hu ho => ?_⟩
    · simp only [analyzeProxy, h, Bool.not_true, Bool.false_eq_true, if_false]
      split_ifs <;> rfl
    · simp only [analyzeProxy, h, Bool.not_true, Bool.false_eq_true, if_false]
      rw [if_pos (by simp [hu, ho])]
      rfl
    · simp only [analyzeProxy, h, Bool.not_true, Bool.false_eq_true, if_false]
      rw [if_neg (by simp [hu, ho]), if_pos hu]
      rfl
    · simp only [analyzeProxy, h, Bool.not_true, Bool.false_eq_true, if_false]
      rw [if_neg (by simp [hu, ho]), if_neg (by simp [hu])]
      simp [ho, buildFinding, indicatorMetadata]
    · simp only [analyzeProxy, h, Bool.not_true, Bool.false_eq_true, if_false]
      rw [if_neg (by simp [hu, ho]), if_neg (by simp [hu])]
      simp [ho, buildFinding, indicatorMetadata]
  · simp only [proxyHasUpgradeFunction, detectedProxySelectorsOf, any_filter_eq,
      proxySelectors, List.any_cons, List.any_nil]
    simp +decide
    tauto

/-- C5 witness: the ladder applied to bytecode containing the upgradeTo
selector together with an explorer record carrying a non-zero proxyAdmin
gives Warn with penalty 15. -/
theorem proxy_ladder_witness :
    (analyzeProxy (some ⟨false, none, none, false, none, some "0xabc1", none, none⟩)
        (some "0x3659cfe6")).status = .warn ∧
    (analyzeProxy (some ⟨false, none, none, false, none, some "0xabc1", none, none⟩)
        (some "0x3659cfe6")).penalty = 15 := by
  have h := proxy_ladder
    (some ⟨false, none, none, false, none, some "0xabc1", none, none⟩)
    (some "0x3659cfe6")
  have hp := h.2.2.1 (by decide)
  exact ⟨hp.1, hp.2.1 (by decide) (by decide)⟩

lemma hasSubstr_iff (pat : List Char) (l : List Char) :
    hasSubstr pat l = true ↔ pat <:+: l := by
  induction l with
  | nil => simp [hasSubstr, List.isEmpty_iff, List.infix_nil]
  | cons c t ih =>
    simp [hasSubstr, Bool.or_eq_true, List.isPrefixOf_iff_prefix, ih,
      List.infix_cons_iff]

lemma strStartsWith_iff (s pat : String) :
    strStartsWith s pat = true ↔ pat.data <+: s.data := by
  simp [strStartsWith, List.isPrefixOf_iff_prefix]

/-- C8: ABI keyword matching is asymmetric by category: a name matches
the owner-privilege vocabulary when some keyword is a substring (infix)
of it, but matches the dangerous-function vocabulary only when some
keyword is a prefix of it; consequently unwithdrawable matches no
dangerous-function keyword even though withdraw occurs inside it, and a
function entry named unwithdrawable contributes no dangerous keyword
match. -/
theorem keyword_matching_asymmetry :
    (∀ names : List String, ∀ n, n ∈ ownerKeywordMatches names ↔
      n ∈ names ∧ ∃ kw ∈ OWNER_PRIVILEGE_KEYWORDS, kw.data <:+: n.data) ∧
    (∀ names : List String, ∀ n, n ∈ dangerousKeywordMatches names ↔
      n ∈ names ∧ ∃ kw ∈ DANGEROUS_FUNCTION_KEYWORDS, kw.data <+: n.data) ∧
    dangerousKeywordMatches
      (functionNamesOf (some [⟨"function", "unwithdrawable", "nonpayable"⟩])) = [] ∧
    ("withdraw").data <:+: ("unwithdrawable").data := by
  refine ⟨?_, ?_, by decide, (hasSubstr_iff _ _).mp (by decide)⟩
  · intro names n
    simp [ownerKeywordMatches, List.mem_filter, List.any_eq_true, strIncludes,
      hasSubstr_iff]
  · intro names n
    simp [dangerousKeywordMatches, List.mem_filter, List.any_eq_true,
      strStartsWith_iff]

/-- C8 witness: the containment characterization applied to a function
name that contains but does not start with an owner keyword. -/
theorem keyword_matching_asymmetry_witness :
    "setfees" ∈ ownerKeywordMatches ["setfees"] :=
  (keyword_matching_asymmetry.1 ["setfees"] "setfees").mpr
    ⟨by decide, "setfee", by decide, (hasSubstr_iff _ _).mp (by decide)⟩

end Auditly
